import Mathlib

/-
Verification of the Cayena ETL pipeline (repository gomes540/cayena).

The repository's only source file, src/dags/cayena_etl/project_dag.py, is an
Airflow DAG wiring eight tasks in sequence:
  start >> create_gcs_cayena_bucket >> run_web_scrapping_script
        >> list_files_from_cayena_bucket_books_daily_data
        >> bq_create_dataset_cayena >> ingest_books_into_table_cayene
        >> check_bq_cayena_table_count >> end
The scraping core (cayena_etl.src.domain.main.etl_web_scrapping) is imported by
the DAG but its body is not in the repository snapshot; where a definition
models that missing body its doc comment says so and follows the spec's words.
Everything else (operator arguments, the task chain, the check SQL) is
translated from the DAG source.
-/

/-- Variables read by the DAG via Airflow `Variable.get` at module load
(project_dag.py, the five values cayena_project_id, cayena_bucket,
cayena_bucket_location, cayena_bq_dataset_name, cayena_bq_table_name). -/
structure AirflowVariables where
  cayena_project_id : String
  cayena_bucket : String
  cayena_bucket_location : String
  cayena_bq_dataset_name : String
  cayena_bq_table_name : String
deriving Repr, DecidableEq

/-- Value of `depends_on_past` in the DAG's default_args. -/
def default_args_depends_on_past : Bool := false

/-- Modelled from the spec: one unparsed catalog item (§3 RawRecord); the
extractor's HTML handling is in the missing core module, so a page item is
carried as its already-detected fields. -/
structure RawRecord where
  title : String
  price_text : String
  availability_text : String
  rating_text : String
  source_url : String
deriving Repr, DecidableEq

/-- Modelled from the spec: a fetched page is the ordered sequence of item
containers detected on it (§4.2: one RawRecord per container, in document
order). -/
structure PageContent where
  items : List RawRecord
deriving Repr, DecidableEq

/-- Modelled from the spec: result of `fetch(index)` (§4.1):
PageContent, EndOfPages, or a fatal fetch error after retries. -/
inductive FetchResult where
  | pageOk : PageContent → FetchResult
  | endOfPages : FetchResult
  | fetchFailed : FetchResult
deriving Repr, DecidableEq

/-- Modelled from the spec: a validated product record (§3 ProductRecord).
Price is in hundredths (two fixed decimal places), rating an integer 0–5. -/
structure ProductRecord where
  title : String
  price : Nat
  in_stock : Bool
  rating : Nat
  source_url : String
  ingestion_date : String
deriving Repr, DecidableEq

/-- Splits a character list at the first occurrence of `sep`, returning the
parts before and after it, or `none` when `sep` does not occur. -/
def splitAtChar (sep : Char) : List Char → Option (List Char × List Char)
  | [] => none
  | c :: cs =>
    if c = sep then some ([], cs)
    else (splitAtChar sep cs).map (fun pq => (c :: pq.1, pq.2))

/-- Numeric value of a decimal digit character, `none` otherwise. -/
def digitVal (c : Char) : Option Nat :=
  if '0' ≤ c ∧ c ≤ '9' then some (c.toNat - 48) else none

/-- Reads a non-empty run of decimal digits as a number (helper). -/
def parseDigitsAux : Nat → List Char → Option Nat
  | acc, [] => some acc
  | acc, c :: cs =>
    match digitVal c with
    | some v => parseDigitsAux (acc * 10 + v) cs
    | none => none

/-- Reads a non-empty all-digit character list as a number. -/
def parseDigits (cs : List Char) : Option Nat :=
  if cs.isEmpty then none else parseDigitsAux 0 cs

/-- Modelled from the spec (§4.3): parses price text into a non-negative
decimal in hundredths, rejecting non-numeric input; tolerates a leading
pound-sterling sign as on the scraped site. -/
def parsePrice (s : String) : Option Nat :=
  let cs := match s.data with
    | '£' :: rest => rest
    | other => other
  match splitAtChar '.' cs with
  | none => (parseDigits cs).map (fun n => n * 100)
  | some (w, f) =>
    if f.length = 2 then
      match parseDigits w, parseDigits f with
      | some a, some b => some (a * 100 + b)
      | _, _ => none
    else none

/-- Modelled from the spec (§4.3): availability text maps to in_stock via a
fixed vocabulary; unrecognized text defaults to false. -/
def parseInStock (s : String) : Bool :=
  s == "In stock"

/-- Modelled from the spec (§4.3): rating text maps to an integer 0–5 via a
fixed qualitative vocabulary; anything else rejects the record. -/
def parseRating (s : String) : Option Nat :=
  if s == "Zero" then some 0
  else if s == "One" then some 1
  else if s == "Two" then some 2
  else if s == "Three" then some 3
  else if s == "Four" then some 4
  else if s == "Five" then some 5
  else none

/-- Modelled from the spec (§4.3 normalize): validates every field, stamps the
run's configured ingestion_date, and rejects (returns none) on a bad price,
bad rating, or empty title. -/
def normalizeRecord (d : String) (r : RawRecord) : Option ProductRecord :=
  if r.title.isEmpty then none
  else
    match parsePrice r.price_text, parseRating r.rating_text with
    | some p, some rt =>
      some ⟨r.title, p, parseInStock r.availability_text, rt, r.source_url, d⟩
    | _, _ => none

/-- Modelled from the spec (§4.3): within-run deduplication by
(title, source_url), keeping the first occurrence; `seen` carries the keys
already emitted. -/
def dedupKeyed (seen : List (String × String)) : List ProductRecord → List ProductRecord
  | [] => []
  | r :: rs =>
    if (r.title, r.source_url) ∈ seen then dedupKeyed seen rs
    else r :: dedupKeyed ((r.title, r.source_url) :: seen) rs

/-- Modelled from the spec (§4): the batch of one run. -/
structure Batch where
  ingestion_date : String
  records : List ProductRecord
  record_count : Nat
deriving Repr, DecidableEq

/-- All normalized records of a run, in traversal order: page order first,
in-page position second (§4.4), before deduplication. -/
def normalizedOf (d : String) (pages : List PageContent) : List ProductRecord :=
  ((pages.map (fun p => p.items)).flatten).filterMap (normalizeRecord d)

/-- Modelled from the spec: assembles the Batch of one run from the fetched
pages, preserving traversal order and setting record_count to the number of
records. -/
def makeBatch (d : String) (pages : List PageContent) : Batch :=
  let recs := dedupKeyed [] (normalizedOf d pages)
  ⟨d, recs, recs.length⟩

/-- Modelled from the spec (§4.4): canonical price text, fixed two decimal
places. -/
def renderPrice (p : Nat) : String :=
  toString (p / 100) ++ "." ++ (if p % 100 < 10 then "0" else "") ++ toString (p % 100)

/-- Modelled from the spec (§4.4): canonical lowercase boolean text. -/
def renderBool (b : Bool) : String :=
  if b then "true" else "false"

/-- Modelled from the spec (§4.4): the fixed, versioned schema row. -/
def headerRow : String :=
  "title,price,in_stock,rating,source_url,ingestion_date"

/-- Modelled from the spec (§4.4): one comma-delimited data row per record. -/
def renderRecord (r : ProductRecord) : String :=
  r.title ++ "," ++ renderPrice r.price ++ "," ++ renderBool r.in_stock ++ ","
    ++ toString r.rating ++ "," ++ r.source_url ++ "," ++ r.ingestion_date

/-- Modelled from the spec (§4.4): the lines written into the artifact, a
single leading schema row followed by the data rows in batch order. -/
def csvLines (b : Batch) : List String :=
  headerRow :: b.records.map renderRecord

/-- Modelled from the spec (§4.4): the serialized byte content of a batch. -/
def serializeBatch (b : Batch) : String :=
  String.intercalate "\x0a" (csvLines b)

/-- Fixed object prefix of the published artifact, from the DAG source (the
GCSListObjectsOperator lists prefix "books-daily-data/" and the load task
consumes source_objects "books-daily-data/*.csv"). -/
def booksDailyDataDir : String := "books-daily-data/"

/-- Modelled from the spec (§6): the artifact path, namespaced by the run's
ingestion_date under the fixed object prefix of the DAG source. -/
def publishPath (d : String) (fname : String) : String :=
  booksDailyDataDir ++ d ++ "/" ++ fname

/-- Modelled from the spec: the artifact object file name; §6 fixes only the
.csv extension. -/
def artifactName : String := "books.csv"

/-- Modelled from the spec (§3 Artifact): path, serialized content, and the
record_count carried alongside. -/
structure Artifact where
  path : String
  content : String
  record_count : Nat
deriving Repr, DecidableEq

/-- Modelled from the spec (§4.5): the artifact a run publishes for a batch. -/
def mkArtifact (d : String) (b : Batch) : Artifact :=
  ⟨publishPath d artifactName, serializeBatch b, b.record_count⟩

/-- Modelled from the spec (§4.1): sequential page walk from index `i`,
collecting page contents until EndOfPages; a fatal fetch error aborts with
none. `fuel` bounds the walk so the function is total. -/
def collectPages (fetch : Nat → FetchResult) : Nat → Nat → Option (List PageContent)
  | 0, _ => some []
  | Nat.succ fuel, i =>
    match fetch i with
    | FetchResult.pageOk c => (collectPages fetch fuel (i + 1)).map (fun rest => c :: rest)
    | FetchResult.endOfPages => some []
    | FetchResult.fetchFailed => none

/-- Explicit inputs of the scraping core, as passed by the DAG's PythonOperator
op_kwargs (ingestion_date "{{ ds }}" and bucket_name CAYENA_BUCKET). -/
structure EtlInput where
  ingestion_date : String
  bucket_name : String
deriving Repr, DecidableEq

/-- Modelled from the spec: the scraping core invoked by the DAG's
run_web_scrapping_script task (its body lives in the missing module
cayena_etl.src.domain.main). Fetch → extract → normalize → dedup → write →
publish; a fatal fetch error yields no artifact. -/
def etl_web_scrapping (inp : EtlInput) (fetch : Nat → FetchResult) (fuel : Nat) :
    Option Artifact :=
  (collectPages fetch fuel 1).map (fun pages =>
    mkArtifact inp.ingestion_date (makeBatch inp.ingestion_date pages))

/-- The op_kwargs of the run_web_scrapping_script task in the DAG source:
ingestion_date is the run's logical date ds, bucket_name the CAYENA_BUCKET
variable. -/
def scraping_task_call (v : AirflowVariables) (ds : String) : EtlInput :=
  ⟨ds, v.cayena_bucket⟩

/-- The scraping task of one DAG run: the core applied to the explicitly
passed op_kwargs. -/
def runScrapingTask (v : AirflowVariables) (ds : String) (fetch : Nat → FetchResult)
    (fuel : Nat) : Option Artifact :=
  etl_web_scrapping (scraping_task_call v ds) fetch fuel

/-- A GCS bucket's object store: object name paired with content lines.
Models the cayena bucket the workflow writes to and loads from. -/
abbrev Bucket := List (String × List String)

/-- Writes an object into the bucket: the object at the same path is
overwritten (replace, never append); a fresh path is added. Models a GCS
object write, the publish step of the core (§4.5 idempotent replace). -/
def putObject : Bucket → String → List String → Bucket
  | [], p, c => [(p, c)]
  | (q, o) :: rest, p, c =>
    if q = p then (p, c) :: rest else (q, o) :: putObject rest p c

/-- Single-star glob match, modelling the wildcard of a BigQuery load URI
(the star matches any characters, slashes included, since GCS object names
are flat): the pattern splits at the star into a required object-name
beginning and end. A starless pattern matches only itself. -/
def patMatch (pat obj : String) : Bool :=
  match splitAtChar '*' pat.data with
  | some (pre, suf) =>
    pre.isPrefixOf obj.data && suf.isSuffixOf obj.data
      && pre.length + suf.length ≤ obj.data.length
  | none => pat.data == obj.data

/-- Arguments of the GCSToBigQueryOperator task in the DAG source, field for
field; schema_fields is absent from the operator call, so none. -/
structure LoadConfig where
  bucket : String
  source_objects : List String
  destination_project_dataset_table : String
  source_format : String
  write_disposition : String
  autodetect : Bool
  skip_leading_rows : Nat
  schema_fields : Option (List String)
  partition_field : String
  partition_type : String
deriving Repr, DecidableEq

/-- The ingest_books_into_table_cayene task of the DAG source: loads
books-daily-data/*.csv from the cayena bucket into
PROJECT_ID.BQ_DATASET_NAME.BQ_TABLE_NAME with WRITE_TRUNCATE, autodetect,
skip_leading_rows 1, day-partitioned on ingestion_date. -/
def ingest_books_into_table_cayene (v : AirflowVariables) : LoadConfig :=
  ⟨v.cayena_bucket,
   ["books-daily-data/*.csv"],
   v.cayena_project_id ++ "." ++ v.cayena_bq_dataset_name ++ "." ++ v.cayena_bq_table_name,
   "csv",
   "WRITE_TRUNCATE",
   true,
   1,
   none,
   "ingestion_date",
   "DAY"⟩

/-- Rows a BigQuery load job reads from the bucket: every object matching one
of the configured source globs contributes its lines with the first
skip_leading_rows lines dropped. -/
def loadMatchedRows (cfg : LoadConfig) (b : Bucket) : List String :=
  (b.filter (fun o => cfg.source_objects.any (fun pat => patMatch pat o.1))).flatMap
    (fun o => o.2.drop cfg.skip_leading_rows)

/-- Table state after the load task: WRITE_TRUNCATE discards the previous
table content and keeps only the freshly loaded rows; any other disposition
would append. -/
def tableAfterLoad (prev : List String) (cfg : LoadConfig) (b : Bucket) : List String :=
  if cfg.write_disposition == "WRITE_TRUNCATE" then loadMatchedRows cfg b
  else prev ++ loadMatchedRows cfg b

/-- One scheduled workflow run over external state (bucket, table): the
scraping task publishes the run's artifact lines at the date-namespaced path
(overwriting any object already there), then the load task rebuilds the
table from the bucket. A fatal fetch error aborts the run with none and no
artifact written. -/
def workflowRun (v : AirflowVariables) (ds : String) (fetch : Nat → FetchResult)
    (fuel : Nat) (b : Bucket) (table : List String) :
    Option (Bucket × List String) :=
  match collectPages fetch fuel 1 with
  | none => none
  | some pages =>
    let batch := makeBatch ds pages
    let b2 := putObject b (publishPath ds artifactName) (csvLines batch)
    some (b2, tableAfterLoad table (ingest_books_into_table_cayene v) b2)

/-- The SQL string of the check_bq_cayena_table_count task in the DAG source:
a whole-table COUNT with no WHERE clause. -/
def check_bq_cayena_table_count_sql (v : AirflowVariables) : String :=
  "SELECT COUNT(*) FROM " ++ v.cayena_bq_dataset_name ++ "." ++ v.cayena_bq_table_name

/-- Result of the check task's query on a table state: the row count of the
whole table, since the source SQL carries no restriction. -/
def checkQueryResult (table : List String) : Nat :=
  table.length

/-- BigQueryCheckOperator semantics on the source's COUNT(*) query: the task
(and with it the workflow) fails exactly when the returned count is 0, a
falsy value. -/
def checkTaskFails (table : List String) : Bool :=
  checkQueryResult table == 0

/-- Whether a loaded CSV row belongs to the partition of date `d`: the
ingestion_date is the last of the comma-separated fields of a data row, so
partition membership is carrying ",d" as a suffix. -/
def rowInPartition (row : String) (d : String) : Bool :=
  ("," ++ d).data.isSuffixOf row.data

/-- Stated from the spec's words for comparison with the code (refinement
check of C3): the row count restricted to the partition of the run's
ingestion_date, which the spec says the verification step queries. -/
def claimedPartitionCount (table : List String) (d : String) : Nat :=
  (table.filter (fun row => rowInPartition row d)).length

/-- The task ids of the DAG, in the order of the source's task sequence
(start >> create bucket >> scrape >> list >> create dataset >> ingest >>
check >> end). -/
def task_sequence : List String :=
  ["start",
   "create_gcs_cayena_bucket",
   "run_web_scrapping_script",
   "list_files_from_cayena_bucket_books_daily_data",
   "bq_create_dataset_cayena",
   "ingest_books_into_table_cayene",
   "check_bq_cayena_table_count",
   "end"]

/-- The tasks of one scheduled run: the DAG is static, so every run date gets
the same task sequence (schedule_interval daily, depends_on_past false). -/
def dagTasksFor (_runDate : String) : List String :=
  task_sequence

/-- Whether task `t` starts in a run of a sequential chain under the success
assignment `succ`: a task starts exactly when every task strictly before it
in the chain has succeeded. -/
def executes (succ : String → Bool) : List String → String → Bool
  | [], _ => false
  | u :: us, t => if u = t then true else succ u && executes succ us t

/-- Deduplication only drops elements: its output is a sublist of its input,
so the surviving records keep their traversal order. -/
theorem dedupKeyed_sublist (rs : List ProductRecord) :
    ∀ seen, (dedupKeyed seen rs).Sublist rs := by
  induction rs with
  | nil => intro seen; simp [dedupKeyed]
  | cons r rs ih =>
    intro seen
    simp only [dedupKeyed]
    split
    · exact (ih seen).cons r
    · exact (ih ((r.title, r.source_url) :: seen)).cons₂ r

/-- A record surviving deduplication was among the normalized records. -/
theorem mem_of_mem_dedupKeyed {r : ProductRecord} {seen : List (String × String)}
    {rs : List ProductRecord} (h : r ∈ dedupKeyed seen rs) : r ∈ rs :=
  (dedupKeyed_sublist rs seen).subset h

/-- The normalizer stamps exactly the run's configured date on every record
it accepts. -/
theorem normalizeRecord_ingestion_date {d : String} {raw : RawRecord}
    {pr : ProductRecord} (h : normalizeRecord d raw = some pr) :
    pr.ingestion_date = d := by
  unfold normalizeRecord at h
  split at h
  · exact Option.noConfusion h
  · split at h
    · cases h; rfl
    · exact Option.noConfusion h

/-- Writing the same content to the same path twice leaves the bucket as
after the first write: object writes replace, never append. -/
theorem putObject_put_same (b : Bucket) (p : String) (c : List String) :
    putObject (putObject b p c) p c = putObject b p c := by
  induction b with
  | nil => simp [putObject]
  | cons o rest ih =>
    obtain ⟨q, cont⟩ := o
    by_cases hq : q = p
    · subst hq; simp [putObject]
    · simp [putObject, hq, ih]

/-- C4: the record_count carried by the Batch, and copied into the published
artifact, equals the number of data rows written into the serialized
content — the lines after the single leading schema row — and equals the
length of the records sequence, for every run input. -/
theorem c4_record_count_matches_rows_written (d : String) (pages : List PageContent) :
    ((csvLines (makeBatch d pages)).drop 1).length = (makeBatch d pages).record_count ∧
    (makeBatch d pages).record_count = (makeBatch d pages).records.length ∧
    (mkArtifact d (makeBatch d pages)).record_count = (makeBatch d pages).record_count := by
  refine ⟨?_, rfl, rfl⟩
  simp [csvLines, makeBatch]

/-- C5: over identical page content the core publishes a byte-identical
artifact (the run is a deterministic function of the fetched pages and the
run input), and the batch's records are a sublist of the normalized records
in traversal order — ascending by (page index, in-page position), never
re-sorted. -/
theorem c5_deterministic_artifact_stable_order (inp : EtlInput)
    (fetch1 fetch2 : Nat → FetchResult) (fuel : Nat)
    (h : ∀ i, fetch1 i = fetch2 i) :
    etl_web_scrapping inp fetch1 fuel = etl_web_scrapping inp fetch2 fuel ∧
    (∀ d pages, (makeBatch d pages).records.Sublist (normalizedOf d pages)) := by
  have hf : fetch1 = fetch2 := funext h
  subst hf
  exact ⟨rfl, fun d pages => dedupKeyed_sublist (normalizedOf d pages) []⟩

/-- Witness for C5 at a concrete fetcher pair. -/
theorem c5_witness :
    etl_web_scrapping ⟨"2022-05-05", "cayena-bucket"⟩ (fun _ => FetchResult.endOfPages) 3
      = etl_web_scrapping ⟨"2022-05-05", "cayena-bucket"⟩ (fun _ => FetchResult.endOfPages) 3 ∧
    (∀ d pages, (makeBatch d pages).records.Sublist (normalizedOf d pages)) :=
  c5_deterministic_artifact_stable_order ⟨"2022-05-05", "cayena-bucket"⟩
    (fun _ => FetchResult.endOfPages) (fun _ => FetchResult.endOfPages) 3 (fun _ => rfl)

/-- C6: every record of a run's batch is stamped with the ingestion_date the
invoking caller supplied for the run (the DAG passes the logical date ds in
op_kwargs), whatever the page content; the date is a run input, not page
content or wall-clock time. -/
theorem c6_ingestion_date_from_caller (v : AirflowVariables) (ds : String)
    (pages : List PageContent) (pr : ProductRecord)
    (h : pr ∈ (makeBatch ds pages).records) :
    pr.ingestion_date = ds ∧ (scraping_task_call v ds).ingestion_date = ds := by
  refine ⟨?_, rfl⟩
  have h1 : pr ∈ dedupKeyed [] (normalizedOf ds pages) := h
  have h2 : pr ∈ normalizedOf ds pages := mem_of_mem_dedupKeyed h1
  unfold normalizedOf at h2
  obtain ⟨raw, _, hraw⟩ := List.mem_filterMap.mp h2
  exact normalizeRecord_ingestion_date hraw

/-- Witness for C6 at a concrete page and record. -/
theorem c6_witness :
    (⟨"A Light in the Attic", 5177, true, 3, "url1", "2022-05-05"⟩ : ProductRecord)
        ∈ (makeBatch "2022-05-05"
            [⟨[⟨"A Light in the Attic", "£51.77", "In stock", "Three", "url1"⟩]⟩]).records ∧
    (⟨"A Light in the Attic", 5177, true, 3, "url1", "2022-05-05"⟩ : ProductRecord).ingestion_date
        = "2022-05-05" :=
  ⟨by decide,
   (c6_ingestion_date_from_caller ⟨"p", "cayena-bucket", "US", "d", "t"⟩ "2022-05-05"
      [⟨[⟨"A Light in the Attic", "£51.77", "In stock", "Three", "url1"⟩]⟩]
      ⟨"A Light in the Attic", 5177, true, 3, "url1", "2022-05-05"⟩ (by decide)).1⟩

/-- C7: EndOfPages at page 1 is a normal termination — the run publishes an
artifact with record_count 0 — while a fatal fetch error at page 1 yields no
artifact at all. -/
theorem c7_empty_catalog_not_a_failure (inp : EtlInput) (fetch : Nat → FetchResult)
    (fuel : Nat) :
    (fetch 1 = FetchResult.endOfPages →
      ∃ a, etl_web_scrapping inp fetch (fuel + 1) = some a ∧ a.record_count = 0) ∧
    (fetch 1 = FetchResult.fetchFailed →
      etl_web_scrapping inp fetch (fuel + 1) = none) := by
  constructor
  · intro h
    refine ⟨mkArtifact inp.ingestion_date (makeBatch inp.ingestion_date []), ?_, rfl⟩
    simp [etl_web_scrapping, collectPages, h]
  · intro h
    simp [etl_web_scrapping, collectPages, h]

/-- Witness for C7 at concrete fetchers: one catalog empty at page 1, one
fatally failing at page 1. -/
theorem c7_witness :
    (∃ a, etl_web_scrapping ⟨"2022-05-05", "cayena-bucket"⟩
        (fun _ => FetchResult.endOfPages) 3 = some a ∧ a.record_count = 0) ∧
    etl_web_scrapping ⟨"2022-05-05", "cayena-bucket"⟩
        (fun _ => FetchResult.fetchFailed) 3 = none :=
  ⟨(c7_empty_catalog_not_a_failure ⟨"2022-05-05", "cayena-bucket"⟩
      (fun _ => FetchResult.endOfPages) 2).1 rfl,
   (c7_empty_catalog_not_a_failure ⟨"2022-05-05", "cayena-bucket"⟩
      (fun _ => FetchResult.fetchFailed) 2).2 rfl⟩

/-- C1: the published artifact path is the fixed prefix of the DAG source
followed by the run's ingestion_date as its own path component and a .csv
file name, and such a path matches the load task's source glob
books-daily-data/*.csv (BigQuery wildcard semantics). -/
theorem c1_artifact_path_namespaced_by_date (d g : String) :
    publishPath d (g ++ ".csv")
        = "books-daily-data/" ++ (d ++ ("/" ++ (g ++ ".csv"))) ∧
    (∃ mid, publishPath d (g ++ ".csv") = "books-daily-data/" ++ mid ++ ".csv") ∧
    patMatch "books-daily-data/*.csv" (publishPath d (g ++ ".csv")) = true := by
  have hdata : (publishPath d (g ++ ".csv")).data
      = "books-daily-data/".data ++ (d.data ++ ("/".data ++ (g.data ++ ".csv".data))) := by
    simp [publishPath, booksDailyDataDir, String.data_append]
  refine ⟨?_, ⟨d ++ "/" ++ g, ?_⟩, ?_⟩
  · simp [publishPath, booksDailyDataDir, String.append_assoc]
  · simp [publishPath, booksDailyDataDir, String.append_assoc]
  · have hsplit : splitAtChar '*' ("books-daily-data/*.csv".data)
        = some ("books-daily-data/".data, ".csv".data) := by decide
    unfold patMatch
    rw [hsplit, hdata]
    have h1 : ("books-daily-data/".data).isPrefixOf
        ("books-daily-data/".data ++ (d.data ++ ("/".data ++ (g.data ++ ".csv".data))))
          = true := by
      apply List.isPrefixOf_iff_prefix.mpr
      exact List.prefix_append _ _
    have s1 : ".csv".data <:+ g.data ++ ".csv".data := List.suffix_append _ _
    have s2 : ".csv".data <:+ "/".data ++ (g.data ++ ".csv".data) :=
      s1.trans (List.suffix_append _ _)
    have s3 : ".csv".data <:+ d.data ++ ("/".data ++ (g.data ++ ".csv".data)) :=
      s2.trans (List.suffix_append _ _)
    have s4 : ".csv".data
        <:+ "books-daily-data/".data ++ (d.data ++ ("/".data ++ (g.data ++ ".csv".data))) :=
      s3.trans (List.suffix_append _ _)
    have h2 : (".csv".data).isSuffixOf
        ("books-daily-data/".data ++ (d.data ++ ("/".data ++ (g.data ++ ".csv".data))))
          = true :=
      List.isSuffixOf_iff_suffix.mpr s4
    have l1 : ("books-daily-data/".data).length = 17 := by decide
    have l2 : (".csv".data).length = 4 := by decide
    have l3 : ("/".data).length = 1 := by decide
    simp only [h1, h2, Bool.true_and, Bool.and_eq_true, decide_eq_true_eq,
      List.length_append, l1, l2, l3]
    omega

/-- The workflow run unfolded at a successful page walk: the artifact lines
are written at the date-namespaced path, and the table is rebuilt from the
bucket alone, the previous table content being discarded by WRITE_TRUNCATE. -/
theorem workflowRun_eq (v : AirflowVariables) (ds : String) (fetch : Nat → FetchResult)
    (fuel : Nat) (b : Bucket) (t : List String) (pages : List PageContent)
    (hc : collectPages fetch fuel 1 = some pages) :
    workflowRun v ds fetch fuel b t = some
      (putObject b (publishPath ds artifactName) (csvLines (makeBatch ds pages)),
       loadMatchedRows (ingest_books_into_table_cayene v)
         (putObject b (publishPath ds artifactName) (csvLines (makeBatch ds pages)))) := by
  unfold workflowRun
  rw [hc]
  simp [tableAfterLoad, ingest_books_into_table_cayene]

/-- C2: re-running the workflow for the same ingestion_date from the state a
first run produced reproduces exactly that state — the publish overwrites
the same object and the WRITE_TRUNCATE load replaces rather than appends —
so the table record count after a second run equals the count after one,
and the loaded table never depends on its previous content. -/
theorem c2_rerun_same_date_idempotent (v : AirflowVariables) (ds : String)
    (fetch : Nat → FetchResult) (fuel : Nat) (b0 b1 : Bucket) (t0 t1 : List String)
    (h : workflowRun v ds fetch fuel b0 t0 = some (b1, t1)) :
    workflowRun v ds fetch fuel b1 t1 = some (b1, t1) ∧
    (∀ b2 t2, workflowRun v ds fetch fuel b1 t1 = some (b2, t2) →
      t2.length = t1.length) ∧
    (ingest_books_into_table_cayene v).write_disposition = "WRITE_TRUNCATE" ∧
    (∀ p1 p2 bkt, tableAfterLoad p1 (ingest_books_into_table_cayene v) bkt
        = tableAfterLoad p2 (ingest_books_into_table_cayene v) bkt) := by
  cases hc : collectPages fetch fuel 1 with
  | none =>
    unfold workflowRun at h
    rw [hc] at h
    exact absurd h (by simp)
  | some pages =>
    rw [workflowRun_eq v ds fetch fuel b0 t0 pages hc] at h
    simp only [Option.some.injEq, Prod.mk.injEq] at h
    obtain ⟨hb, ht⟩ := h
    have hput : putObject b1 (publishPath ds artifactName) (csvLines (makeBatch ds pages))
        = b1 := by
      rw [← hb]
      exact putObject_put_same b0 _ _
    rw [hb] at ht
    have hrun : workflowRun v ds fetch fuel b1 t1 = some (b1, t1) := by
      rw [workflowRun_eq v ds fetch fuel b1 t1 pages hc, hput, ht]
    refine ⟨hrun, ?_, rfl, ?_⟩
    · intro b2 t2 h2
      rw [hrun] at h2
      simp only [Option.some.injEq, Prod.mk.injEq] at h2
      rw [h2.2]
    · intro p1 p2 bkt
      simp [tableAfterLoad, ingest_books_into_table_cayene]

/-- Witness for C2 at a concrete first run: empty catalog, empty initial
bucket and table. -/
theorem c2_witness :
    workflowRun ⟨"proj", "cayena-bucket", "US", "dset", "tbl"⟩ "2022-05-05"
        (fun _ => FetchResult.endOfPages) 1
        [("books-daily-data/2022-05-05/books.csv", [headerRow])] [] =
      some ([("books-daily-data/2022-05-05/books.csv", [headerRow])], []) ∧
    (∀ b2 t2, workflowRun ⟨"proj", "cayena-bucket", "US", "dset", "tbl"⟩ "2022-05-05"
        (fun _ => FetchResult.endOfPages) 1
        [("books-daily-data/2022-05-05/books.csv", [headerRow])] [] = some (b2, t2) →
      t2.length = List.length ([] : List String)) ∧
    (ingest_books_into_table_cayene
        ⟨"proj", "cayena-bucket", "US", "dset", "tbl"⟩).write_disposition
      = "WRITE_TRUNCATE" ∧
    (∀ p1 p2 bkt, tableAfterLoad p1
        (ingest_books_into_table_cayene ⟨"proj", "cayena-bucket", "US", "dset", "tbl"⟩) bkt
      = tableAfterLoad p2
        (ingest_books_into_table_cayene ⟨"proj", "cayena-bucket", "US", "dset", "tbl"⟩) bkt) :=
  c2_rerun_same_date_idempotent ⟨"proj", "cayena-bucket", "US", "dset", "tbl"⟩ "2022-05-05"
    (fun _ => FetchResult.endOfPages) 1 [] [("books-daily-data/2022-05-05/books.csv", [headerRow])]
    [] [] (by decide)

/-- Counterexample to C3: a table holding one row of an earlier date's
partition and none for the run date 2022-05-05. The source's check counts
the whole table (1, so the workflow passes), while the claimed
partition-restricted count is 0 (so per the claim the workflow should
fail): the stated equivalence is false. -/
theorem c3_counterexample :
    ¬ ((checkTaskFails ["t,1.00,true,3,u,2022-05-04"] = true) ↔
       (claimedPartitionCount ["t,1.00,true,3,u,2022-05-04"] "2022-05-05" = 0)) := by
  decide

/-- C3 amended: the verification step issues a row-count query over the
entire table — the source SQL has no restriction to the run's
ingestion_date partition — and the workflow fails exactly when that
whole-table count is zero. -/
theorem c3_amended_whole_table_check (v : AirflowVariables) (table : List String) :
    check_bq_cayena_table_count_sql v
      = "SELECT COUNT(*) FROM " ++ v.cayena_bq_dataset_name ++ "."
          ++ v.cayena_bq_table_name ∧
    checkQueryResult table = table.length ∧
    (checkTaskFails table = true ↔ table.length = 0) := by
  refine ⟨rfl, rfl, ?_⟩
  simp [checkTaskFails, checkQueryResult]

/-- C8: the scraping task's invocation passes the run's configuration
explicitly (op_kwargs carry the logical date and the bucket name), and the
core's output is unchanged under any change of the ambient Airflow
variables that preserves what is explicitly passed — in particular it does
not depend on the project id, dataset name, table name, or bucket
location. -/
theorem c8_explicit_config_no_ambient_dependence (v1 v2 : AirflowVariables)
    (ds : String) (fetch : Nat → FetchResult) (fuel : Nat)
    (h : v1.cayena_bucket = v2.cayena_bucket) :
    scraping_task_call v1 ds = ⟨ds, v1.cayena_bucket⟩ ∧
    runScrapingTask v1 ds fetch fuel = runScrapingTask v2 ds fetch fuel := by
  refine ⟨rfl, ?_⟩
  unfold runScrapingTask scraping_task_call
  rw [h]

/-- Witness for C8: two variable environments differing in project id,
location, dataset, and table but sharing the bucket. -/
theorem c8_witness :
    scraping_task_call ⟨"projA", "cayena-bucket", "US", "dsetA", "tblA"⟩ "2022-05-05"
      = ⟨"2022-05-05", "cayena-bucket"⟩ ∧
    runScrapingTask ⟨"projA", "cayena-bucket", "US", "dsetA", "tblA"⟩ "2022-05-05"
        (fun _ => FetchResult.endOfPages) 3
      = runScrapingTask ⟨"projB", "cayena-bucket", "EU", "dsetB", "tblB"⟩ "2022-05-05"
        (fun _ => FetchResult.endOfPages) 3 :=
  c8_explicit_config_no_ambient_dependence
    ⟨"projA", "cayena-bucket", "US", "dsetA", "tblA"⟩
    ⟨"projB", "cayena-bucket", "EU", "dsetB", "tblB"⟩ "2022-05-05"
    (fun _ => FetchResult.endOfPages) 3 rfl

/-- C9: every scheduled run carries the same task sequence, in which both
provisioning tasks occur; the bucket-creation task strictly precedes the
scraping task and the dataset-creation task strictly precedes the load
task; and under sequential-chain semantics the scraping (resp. load) task
only starts once bucket (resp. dataset) creation has succeeded in that
run. -/
theorem c9_provisioning_reruns_and_precedes_use (succ : String → Bool) (runDate : String) :
    dagTasksFor runDate = task_sequence ∧
    "create_gcs_cayena_bucket" ∈ dagTasksFor runDate ∧
    "bq_create_dataset_cayena" ∈ dagTasksFor runDate ∧
    task_sequence.indexOf "create_gcs_cayena_bucket"
      < task_sequence.indexOf "run_web_scrapping_script" ∧
    task_sequence.indexOf "bq_create_dataset_cayena"
      < task_sequence.indexOf "ingest_books_into_table_cayene" ∧
    (executes succ task_sequence "run_web_scrapping_script" = true →
      succ "create_gcs_cayena_bucket" = true) ∧
    (executes succ task_sequence "ingest_books_into_table_cayene" = true →
      succ "bq_create_dataset_cayena" = true) ∧
    default_args_depends_on_past = false := by
  refine ⟨rfl, (by decide : "create_gcs_cayena_bucket" ∈ task_sequence),
    (by decide : "bq_create_dataset_cayena" ∈ task_sequence), by decide, by decide,
    ?_, ?_, rfl⟩
  · intro h
    simp [executes, task_sequence] at h
    exact h.2
  · intro h
    simp [executes, task_sequence] at h
    exact h.2.2.2.2

/-- Witness for C9 at the all-successful assignment. -/
theorem c9_witness :
    dagTasksFor "2022-05-05" = task_sequence ∧
    "create_gcs_cayena_bucket" ∈ dagTasksFor "2022-05-05" ∧
    "bq_create_dataset_cayena" ∈ dagTasksFor "2022-05-05" ∧
    task_sequence.indexOf "create_gcs_cayena_bucket"
      < task_sequence.indexOf "run_web_scrapping_script" ∧
    task_sequence.indexOf "bq_create_dataset_cayena"
      < task_sequence.indexOf "ingest_books_into_table_cayene" ∧
    (executes (fun _ => true) task_sequence "run_web_scrapping_script" = true →
      (fun _ => true) "create_gcs_cayena_bucket" = true) ∧
    (executes (fun _ => true) task_sequence "ingest_books_into_table_cayene" = true →
      (fun _ => true) "bq_create_dataset_cayena" = true) ∧
    default_args_depends_on_past = false :=
  c9_provisioning_reruns_and_precedes_use (fun _ => true) "2022-05-05"

/-- C10: the load task infers the schema at load time (autodetect true, no
schema declared), and reads every glob-matched object skipping exactly its
one leading row. -/
theorem c10_autodetect_and_skip_one_row (v : AirflowVariables) :
    (ingest_books_into_table_cayene v).autodetect = true ∧
    (ingest_books_into_table_cayene v).schema_fields = none ∧
    (ingest_books_into_table_cayene v).skip_leading_rows = 1 ∧
    (ingest_books_into_table_cayene v).source_objects = ["books-daily-data/*.csv"] ∧
    (∀ b : Bucket, loadMatchedRows (ingest_books_into_table_cayene v) b
      = (b.filter (fun o => (ingest_books_into_table_cayene v).source_objects.any
          (fun pat => patMatch pat o.1))).flatMap (fun o => o.2.drop 1)) :=
  ⟨rfl, rfl, rfl, rfl, fun _ => rfl⟩
